import Mathlib

/-!
Shallow embedding of the `re_gen` message-processor core
(`src/message_processor.cxx`, `src/message_processor.h`, `src/queue.h`).

Strings are modelled as `List Char`; `std::map<int, T>` is modelled as an
association list with the `operator[]` default-inserting lookup made
explicit; `size_t` arithmetic (`msg.size() - 2` and `std::string::npos`)
is modelled with explicit `% 2^64` wraparound.
-/

namespace ReGen

/-- `re_gen::Verbosity_Level` from gendefs.h, ordered ascending:
`VERBOSITY_QUIET(0) < VERBOSITY_ERRORS(1) < VERBOSITY_MAJOR_STEPS(2) <
VERBOSITY_MINOR_STEPS(3) < VERBOSITY_EVERYTHING(4)`. -/
inductive Verbosity_Level where
  | VERBOSITY_QUIET
  | VERBOSITY_ERRORS
  | VERBOSITY_MAJOR_STEPS
  | VERBOSITY_MINOR_STEPS
  | VERBOSITY_EVERYTHING
  deriving DecidableEq, Repr

open Verbosity_Level

/-- The numeric value of the C++ enum constant. -/
def Verbosity_Level.toNat : Verbosity_Level → Nat
  | VERBOSITY_QUIET => 0
  | VERBOSITY_ERRORS => 1
  | VERBOSITY_MAJOR_STEPS => 2
  | VERBOSITY_MINOR_STEPS => 3
  | VERBOSITY_EVERYTHING => 4

/-- C++ `<=` on the enum compares the numeric values. -/
def vle (a b : Verbosity_Level) : Bool := a.toNat ≤ b.toNat

/-- `enum Action` of the anonymous namespace in message_processor.cxx. -/
inductive Action where
  | ACTION_KILL
  | ACTION_DISPLAY_MSG
  deriving DecidableEq, Repr

open Action

/-- `class Message_Parms`: one queued command for the consumer thread.
`tid` models the `pthread_t` of the producer (an unsigned integer). -/
structure Message_Parms where
  action : Action
  tid : Nat
  src : Int
  severity : Verbosity_Level
  msg : List Char
  deriving DecidableEq, Repr

/-- Lookup in a `std::map` modelled as an association list (`find`). -/
def mapFind {α : Type} (m : List (Int × α)) (k : Int) : Option α :=
  (m.find? (fun p => p.1 == k)).map Prod.snd

/-- `std::map::operator[]`: returns the mapped value, default-inserting a
value-initialized entry when the key is absent.  Returns the value read
together with the (possibly grown) map. -/
def mapIndex {α : Type} (m : List (Int × α)) (k : Int) (dflt : α) :
    α × List (Int × α) :=
  match mapFind m k with
  | some v => (v, m)
  | none => (dflt, m ++ [(k, dflt)])

/-- `std::map::operator[]` followed by assignment: overwrite or insert. -/
def mapSet {α : Type} (m : List (Int × α)) (k : Int) (v : α) :
    List (Int × α) :=
  if (mapFind m k).isSome then
    m.map (fun p => if p.1 == k then (k, v) else p)
  else
    m ++ [(k, v)]

/-- `msg_prefixes[]` from the anonymous namespace. -/
def msg_prefixes : Verbosity_Level → List Char
  | VERBOSITY_QUIET => "".toList
  | VERBOSITY_ERRORS => "Error: ".toList
  | VERBOSITY_MAJOR_STEPS => "Info:  ".toList
  | VERBOSITY_MINOR_STEPS => "Info:  ".toList
  | VERBOSITY_EVERYTHING => "Debug: ".toList

/-- `#define MESSAGE_PROCESSOR_VERBOSITY re_gen::VERBOSITY_EVERYTHING`. -/
def MESSAGE_PROCESSOR_VERBOSITY : Verbosity_Level := VERBOSITY_EVERYTHING

/-- `std::string::npos` for a 64-bit `size_t`. -/
def NPOS : Nat := 2 ^ 64 - 1

/-- `s.rfind(pat)`: the largest index at which `pat` occurs in `s`,
`npos` when there is no occurrence. -/
def strRfind (s pat : List Char) : Nat :=
  match (List.range (s.length + 1)).reverse.find?
      (fun i => pat.isPrefixOf (s.drop i)) with
  | some i => i
  | none => NPOS

/-- `s.size() - 2` computed in `size_t` arithmetic (wraps below zero). -/
def sizeMinus2 (s : List Char) : Nat := (s.length + 2 ^ 64 - 2) % 2 ^ 64

/-- The ticker test exactly as the source writes it (lines 133 and 168):
`msg.rfind(" .") == msg.size() - 2`. -/
def isTicker (s : List Char) : Bool :=
  strRfind s " .".toList == sizeMinus2 s

/-- The spec's wording of the ticker test, for comparison:
"a message is a ticker message iff `text` ends with `\" .\"`". -/
def isTickerSpec (s : List Char) : Bool :=
  " .".toList.isSuffixOf s

/-- `std::setw(2)`: pad a rendered number on the left to width two. -/
def setw2 (s : List Char) : List Char :=
  if s.length < 2 then List.replicate (2 - s.length) ' ' ++ s else s

/-- Decimal rendering of the `pthread_t` value inserted into the stream. -/
def tidChars (t : Nat) : List Char := Nat.toDigits 10 t

/-- The mutable per-`Impl` data that `make_msg_to_display` reads (and,
through `operator[]`, may write): the two source maps and the overall
verbosity ceiling, plus the `we_are_dead` flag. -/
structure ImplState where
  we_are_dead : Bool
  message_source_name_map : List (Int × List Char)
  message_source_verbosity_map : List (Int × Verbosity_Level)
  overall_verbosity : Verbosity_Level
  deriving DecidableEq, Repr

/-- `message_processor_src_id`, set to 0 in `Impl::Impl`. -/
def message_processor_src_id : Int := 0

/-- The `Impl` state as `Impl::Impl` leaves it: source 0 registered as
"Message_Processor" with ceiling `MESSAGE_PROCESSOR_VERBOSITY`. -/
def impl_init (overall : Verbosity_Level) : ImplState :=
  { we_are_dead := false
    message_source_name_map := [(message_processor_src_id, "Message_Processor".toList)]
    message_source_verbosity_map := [(message_processor_src_id, MESSAGE_PROCESSOR_VERBOSITY)]
    overall_verbosity := overall }

/-- `Message_Processor::Impl::make_msg_to_display` (lines 114-138).
Returns the render decision, the rendered string, and the state after the
`message_source_verbosity_map[src]` lookup (which default-inserts).
The decision is `severity <= message_source_verbosity_map[src] &&
severity <= overall_verbosity`, evaluated on the state at call time. -/
def make_msg_to_display (st : ImplState) (p : Message_Parms) :
    Bool × List Char × ImplState :=
  let msg_src_str : List Char :=
    match mapFind st.message_source_name_map p.src with
    | some name =>
        if p.msg.take 2 ≠ "::".toList then name ++ " - ".toList else name
    | none => []
  let rendered : List Char :=
    if p.severity = VERBOSITY_QUIET then
      p.msg
    else
      let line := "[".toList ++ setw2 (tidChars p.tid) ++ "] ".toList ++
        msg_prefixes p.severity ++ " ".toList ++ msg_src_str ++ p.msg
      if isTicker p.msg then line else line ++ ['\n']
  let cv := mapIndex st.message_source_verbosity_map p.src VERBOSITY_QUIET
  (vle p.severity cv.1 && vle p.severity st.overall_verbosity,
   rendered,
   { st with message_source_verbosity_map := cv.2 })

/-- `tick_string[]` from `Impl::loop` (line 154); index taken `& 3`. -/
def tick_string : Nat → List Char
  | 0 => [Char.ofNat 8, '|']
  | 1 => [Char.ofNat 8, '/']
  | 2 => [Char.ofNat 8, '-']
  | _ => [Char.ofNat 8, '\\']

/-- `mod_tick_string[]` from `Impl::loop` (line 155). -/
def mod_tick_string : Nat → List Char
  | 0 => [Char.ofNat 8, '!']
  | 1 => [Char.ofNat 8, 'X']
  | 2 => [Char.ofNat 8, '=']
  | _ => [Char.ofNat 8, 'V']

/-- One insertion into `std::cerr` performed by the consumer thread. -/
inductive OutItem where
  | out (s : List Char)
  | outLn (s : List Char)
  | glyph (normal : Bool) (i : Nat)
  | newline
  deriving DecidableEq, Repr

/-- The characters an `OutItem` puts on the stream; a glyph is the
backspace-plus-symbol pair from the corresponding rotation array. -/
def OutItem.chars : OutItem → List Char
  | .out s => s
  | .outLn s => s ++ ['\n']
  | .glyph true i => tick_string i
  | .glyph false i => mod_tick_string i
  | .newline => ['\n']

/-- Narrowing a 64-bit `pthread_t` value into the 32-bit `int` local
`prev_tid` (the assignments `prev_tid = message_parms.tid` at lines 191
and 206): the value is reduced modulo `2^32` and read back as a
two's-complement signed 32-bit integer, the defined behaviour of the
LP64 implementations this code targets. -/
def int_of_tid (t : Nat) : Int :=
  if t % 2 ^ 32 < 2 ^ 31 then ((t % 2 ^ 32 : Nat) : Int)
  else ((t % 2 ^ 32 : Nat) : Int) - 2 ^ 32

/-- The locals of `Impl::loop` that persist across iterations
(lines 149-153).  `prev_tid` and `prev_src` are C++ `int`s initialized
to `-1`.  `prev_tid` is 32-bit: assignments from the 64-bit
`message_parms.tid` narrow through `int_of_tid`, and the comparison
`message_parms.tid == prev_tid` at line 171 converts the `int` back to
the unsigned 64-bit `pthread_t` type (sign extension, i.e. both sides
taken modulo `2^64`). -/
structure LoopState where
  tick_count : Nat
  prev_msg : List Char
  prev_tid : Int
  prev_src : Int
  prev_severity : Verbosity_Level
  deriving DecidableEq, Repr

/-- The loop-local state at entry to the do-while. -/
def initLoopState : LoopState :=
  { tick_count := 0
    prev_msg := []
    prev_tid := -1
    prev_src := -1
    prev_severity := VERBOSITY_ERRORS }

/-- One iteration of the do-while in `Impl::loop` (lines 156-215) on a
popped `Message_Parms`.  Returns the updated states, the `std::cerr`
insertions of the iteration, and whether the message was `ACTION_KILL`
(in which case `we_are_dead` is set and the loop exits).  `& 3` on the
nonnegative `tick_count` is written `% 4`.  The same-thread test at
line 171 compares the tid with the sign-extended 32-bit `prev_tid`
(both modulo `2^64`), and the assignments to `prev_tid` narrow the tid
through `int_of_tid`. -/
def loop_step (ist : ImplState) (ls : LoopState) (p : Message_Parms) :
    ImplState × LoopState × List OutItem × Bool :=
  match p.action with
  | ACTION_KILL => ({ ist with we_are_dead := true }, ls, [], true)
  | ACTION_DISPLAY_MSG =>
    let r := make_msg_to_display ist p
    let ok := r.1
    let s := r.2.1
    let ist1 := r.2.2
    if ok then
      if isTicker p.msg then
        if ls.tick_count ≠ 0 then
          if p.src = ls.prev_src ∧
              (p.tid : Int) % 2 ^ 64 = ls.prev_tid % 2 ^ 64 then
            if p.msg ≠ ls.prev_msg then
              (ist1, { ls with prev_msg := p.msg, tick_count := 1 },
               [.newline, .out s, .glyph true 0], false)
            else
              (ist1, { ls with tick_count := ls.tick_count + 1 },
               [.glyph true (ls.tick_count % 4)], false)
          else
            (ist1, { ls with tick_count := ls.tick_count + 1 },
             [.glyph false (ls.tick_count % 4)], false)
        else
          (ist1, { ls with prev_src := p.src, prev_msg := p.msg,
                           prev_tid := int_of_tid p.tid, tick_count := 1 },
           [.out s, .glyph true 0], false)
      else
        let lead : List OutItem :=
          if ls.tick_count ≠ 0 then [.newline]
          else if ls.prev_severity = VERBOSITY_QUIET ∧ p.severity ≠ VERBOSITY_QUIET then
            [.newline]
          else []
        (ist1,
         { tick_count := 0, prev_src := p.src, prev_msg := p.msg,
           prev_tid := int_of_tid p.tid, prev_severity := p.severity },
         lead ++ [.out s], false)
    else
      (ist1, ls, [], false)

/-- Run the consumer over a list of popped messages, stopping after a
`Kill` as the do-while does. -/
def loop_run (ist : ImplState) (ls : LoopState) :
    List Message_Parms → ImplState × LoopState × List OutItem
  | [] => (ist, ls, [])
  | p :: ps =>
    let r := loop_step ist ls p
    if r.2.2.2 then (r.1, r.2.1, r.2.2.1)
    else
      let r2 := loop_run r.1 r.2.1 ps
      (r2.1, r2.2.1, r.2.2.1 ++ r2.2.2)

/-- The code after the do-while in `Impl::loop` (lines 216-219): a
`VERBOSITY_MINOR_STEPS` "Impl::run - exit" diagnostic from source
`message_processor_src_id`, rendered with `std::endl` when the filter
passes. -/
def loop_epilogue (ist : ImplState) (self_tid : Nat) : ImplState × List OutItem :=
  let p : Message_Parms :=
    ⟨ACTION_DISPLAY_MSG, self_tid, message_processor_src_id,
     VERBOSITY_MINOR_STEPS, "Impl::run - exit".toList⟩
  let r := make_msg_to_display ist p
  (r.2.2, if r.1 then [.outLn r.2.1] else [])

/-- The whole consumer-thread function `Impl::loop` on a message
sequence: the do-while followed, once `Kill` was observed, by the
epilogue diagnostic.  If no `Kill` is in the list the loop is still
blocked in `pop` and the epilogue is not reached. -/
def consumer_thread (ist : ImplState) (self_tid : Nat)
    (msgs : List Message_Parms) : ImplState × List OutItem :=
  let r := loop_run ist initLoopState msgs
  if r.1.we_are_dead then
    let e := loop_epilogue r.1 self_tid
    (e.1, r.2.2 ++ e.2)
  else (r.1, r.2.2)

/-- A `Message_Processor` together with its queue: the `Impl` fields
plus the FIFO `message_queue` (push appends at the tail, the consumer
pops from the head). -/
structure BrokerState where
  impl : ImplState
  queue : List Message_Parms
  deriving DecidableEq, Repr

/-- `Message_Processor::process_msg` (lines 279-284).  The C++ `&&`
short-circuits: the per-source `operator[]` lookup (which
default-inserts `VERBOSITY_QUIET`) runs only when
`severity <= overall_verbosity` already holds. -/
def process_msg (bs : BrokerState) (caller_tid : Nat) (msg_src_id : Int)
    (severity : Verbosity_Level) (msg_str : List Char) : BrokerState :=
  if vle severity bs.impl.overall_verbosity then
    let cv :=
      mapIndex bs.impl.message_source_verbosity_map msg_src_id VERBOSITY_QUIET
    let impl1 := { bs.impl with message_source_verbosity_map := cv.2 }
    if vle severity cv.1 then
      { impl := impl1,
        queue := bs.queue ++
          [⟨ACTION_DISPLAY_MSG, caller_tid, msg_src_id, severity, msg_str⟩] }
    else
      { impl := impl1, queue := bs.queue }
  else bs

/-- `Message_Processor::set_overall_verbosity` (lines 268-270). -/
def set_overall_verbosity (bs : BrokerState) (v : Verbosity_Level) : BrokerState :=
  { bs with impl := { bs.impl with overall_verbosity := v } }

/-- `Message_Processor::register_msg_src` (lines 272-277): the next id is
the current size of the name map. -/
def register_msg_src (bs : BrokerState) (verbosity : Verbosity_Level)
    (src_str : List Char) : Int × BrokerState :=
  let msg_src_id : Int := bs.impl.message_source_name_map.length
  (msg_src_id,
   { bs with impl := { bs.impl with
       message_source_name_map :=
         mapSet bs.impl.message_source_name_map msg_src_id src_str,
       message_source_verbosity_map :=
         mapSet bs.impl.message_source_verbosity_map msg_src_id verbosity } })

/-- The process-wide `singleton_message_processor` pointer of the
anonymous namespace: `none` models the null pointer, `some a` a pointer
to the instance with address `a`. -/
structure GlobalState where
  singleton : Option Nat
  deriving DecidableEq, Repr

/-- Outcome of running `Message_Processor::Message_Processor`: either the
constructed broker, or the thrown error message; both carry the
`singleton_message_processor` value left behind. -/
inductive CtorOutcome where
  | ok (g : GlobalState) (bs : BrokerState)
  | err (what : List Char) (g : GlobalState)
  deriving DecidableEq, Repr

/-- `Message_Processor::Message_Processor` (lines 233-247).  `self` is
the address of the object under construction, `spawn_ok` whether
`pthread_create` in `Impl::Impl` succeeds.  On spawn failure
`Impl::Impl` throws; the catch block deletes `pimpl` (still null) and
rethrows — it does not reset `singleton_message_processor`, so the
failed instance stays installed. -/
def mp_construct (g : GlobalState) (self : Nat) (self_tid : Nat)
    (spawn_ok : Bool) (overall : Verbosity_Level) : CtorOutcome :=
  if g.singleton ≠ none then
    .err "Message_Processor::get_message_processor - Message_Processor singleton already initialized".toList g
  else
    let g1 : GlobalState := { singleton := some self }
    if spawn_ok then
      let bs0 : BrokerState := { impl := impl_init overall, queue := [] }
      .ok g1 (process_msg bs0 self_tid message_processor_src_id
        VERBOSITY_EVERYTHING
        "::Message_Processor - started Message_Processor".toList)
    else
      .err "error in pthread_mutex_init".toList g1

/-- `Message_Processor::get_message_processor` (lines 286-290). -/
def get_message_processor (g : GlobalState) : Except (List Char) Nat :=
  match g.singleton with
  | none => .error "Message_Processor::get_message_processor - Message_Processor singleton was never initialized".toList
  | some p => .ok p

/-- The two messages `Impl::~Impl` pushes, in push order (lines 93-96):
first the `VERBOSITY_MINOR_STEPS` "killing message processor" status
display, then the `ACTION_KILL` sentinel. -/
def impl_dtor_pushes (self_tid : Nat) : List Message_Parms :=
  [⟨ACTION_DISPLAY_MSG, self_tid, message_processor_src_id,
    VERBOSITY_MINOR_STEPS, "killing message processor".toList⟩,
   ⟨ACTION_KILL, self_tid, message_processor_src_id,
    VERBOSITY_QUIET, "".toList⟩]

/-- The loop bound of the destructor poll loop
`for (int i = 0; !we_are_dead && i < 10; ++i)`. -/
def impl_dtor_max_polls : Nat := 10

/-- The `select` timeout of one poll: `timeval timeout = {0, 100000}`,
i.e. 100000 microseconds. -/
def impl_dtor_poll_timeout_usec : Nat := 100000

/-- Number of `select` sleeps the destructor performs when `we_are_dead`
first reads true at check number `k` (0-based; `none` = never during the
loop).  The loop bound caps it at `impl_dtor_max_polls`. -/
def impl_dtor_poll_count (dead_at : Option Nat) : Nat :=
  match dead_at with
  | none => impl_dtor_max_polls
  | some k => min k impl_dtor_max_polls

/-- `Impl::~Impl` (lines 92-107) as a total function: the messages
pushed, the number of bounded polls, and the final local
`VERBOSITY_EVERYTHING` "Impl::~Impl" diagnostic (printed with
`std::endl` when the filter passes).  The consumer thread is never
forcibly terminated and the destructor returns for every `dead_at`. -/
def impl_dtor (ist : ImplState) (self_tid : Nat) (dead_at : Option Nat) :
    List Message_Parms × Nat × List OutItem :=
  let p : Message_Parms :=
    ⟨ACTION_DISPLAY_MSG, self_tid, message_processor_src_id,
     VERBOSITY_EVERYTHING, "Impl::~Impl".toList⟩
  let r := make_msg_to_display ist p
  (impl_dtor_pushes self_tid, impl_dtor_poll_count dead_at,
   if r.1 then [.outLn r.2.1] else [])

/-! ## Helper lemmas -/

lemma mapIndex_of_none {α : Type} {m : List (Int × α)} {k : Int} {d : α}
    (h : mapFind m k = none) : mapIndex m k d = (d, m ++ [(k, d)]) := by
  simp [mapIndex, h]

lemma mapIndex_of_some {α : Type} {m : List (Int × α)} {k : Int} {d v : α}
    (h : mapFind m k = some v) : mapIndex m k d = (v, m) := by
  simp [mapIndex, h]

lemma mapFind_append_single_self {α : Type} {m : List (Int × α)} {k : Int}
    {v : α} (h : mapFind m k = none) : mapFind (m ++ [(k, v)]) k = some v := by
  induction m with
  | nil => simp [mapFind]
  | cons p t ih =>
    simp only [mapFind, List.find?, List.cons_append] at h ⊢
    cases hp : (p.1 == k) with
    | true => simp [hp] at h
    | false =>
      simp only [hp] at h ⊢
      exact ih h

lemma vle_quiet_left (b : Verbosity_Level) : vle VERBOSITY_QUIET b = true := by
  cases b <;> decide

lemma vle_quiet_right_iff (a : Verbosity_Level) :
    vle a VERBOSITY_QUIET = true ↔ a = VERBOSITY_QUIET := by
  cases a <;> decide

/-! ## Claim theorems -/

/-- C2: the source's ticker test `msg.rfind(" .") == msg.size() - 2`
(lines 133 and 168) misclassifies every one-character text: in `size_t`
arithmetic `size() - 2` wraps to `npos` and `rfind` also returns `npos`,
so the test is true although such a text does not end with `" ."`.  The
remaining conjuncts show the test agreeing with the spec's suffix
condition on representative longer and empty texts, so the wraparound
case is the deviation. -/
theorem ticker_test_wraps_on_one_char_text :
    isTicker "x".toList = true ∧ isTickerSpec "x".toList = false ∧
    isTicker "".toList = false ∧ isTickerSpec "".toList = false ∧
    isTicker "ab .".toList = true ∧ isTickerSpec "ab .".toList = true ∧
    isTicker " .".toList = true ∧ isTickerSpec " .".toList = true ∧
    isTicker "ab.".toList = false ∧ isTickerSpec "ab.".toList = false := by
  decide

/-- C3: when `pthread_create` fails, the constructor's catch block
rethrows without resetting `singleton_message_processor`, so the failed
instance stays installed and every retry fails with the
"already initialized" error instead of succeeding. -/
theorem failed_construction_keeps_singleton_installed :
    mp_construct ⟨none⟩ 7 1 false VERBOSITY_MINOR_STEPS =
      .err "error in pthread_mutex_init".toList ⟨some 7⟩ ∧
    (∀ (self2 tid2 : Nat) (sp : Bool) (ov : Verbosity_Level),
      mp_construct ⟨some 7⟩ self2 tid2 sp ov =
        .err "Message_Processor::get_message_processor - Message_Processor singleton already initialized".toList
          ⟨some 7⟩) := by
  exact ⟨rfl, fun self2 tid2 sp ov => rfl⟩

/-- C4: constructing while an instance is installed errors with
"already initialized" and leaves the installed instance in place;
the accessor errors with "never initialized" while the slot is null;
after a successful construction the accessor returns the constructed
instance. -/
theorem singleton_lifecycle :
    (∀ (p self tid : Nat) (sp : Bool) (ov : Verbosity_Level),
      mp_construct ⟨some p⟩ self tid sp ov =
        .err "Message_Processor::get_message_processor - Message_Processor singleton already initialized".toList
          ⟨some p⟩) ∧
    get_message_processor ⟨none⟩ =
      .error "Message_Processor::get_message_processor - Message_Processor singleton was never initialized".toList ∧
    (∀ (self tid : Nat) (ov : Verbosity_Level),
      ∃ bs : BrokerState,
        mp_construct ⟨none⟩ self tid true ov = .ok ⟨some self⟩ bs ∧
        get_message_processor ⟨some self⟩ = .ok self) := by
  exact ⟨fun p self tid sp ov => rfl, rfl, fun self tid ov => ⟨_, rfl, rfl⟩⟩

/-- C7: a `VERBOSITY_QUIET` message is rendered as exactly its raw text:
no thread/severity/source prefix, no separator, no appended line
break. -/
theorem quiet_renders_verbatim (st : ImplState) (a : Action) (tid : Nat)
    (src : Int) (m : List Char) :
    (make_msg_to_display st ⟨a, tid, src, VERBOSITY_QUIET, m⟩).2.1 = m := rfl

/-- C8: the destructor pushes the `VERBOSITY_MINOR_STEPS` status display
and then the `ACTION_KILL` sentinel, in that order, onto the FIFO
queue; the poll loop runs at most 10 iterations and the destructor is a
total function of the observed `we_are_dead` behaviour (it never
forcibly terminates the thread); but each poll's `select` timeout is
`timeval {0, 100000}`, i.e. 100000 µs = 100 ms per check (up to ~1 s
total), not the ~10 ms per check (~100 ms total) the code's own comment
and the spec describe. -/
theorem dtor_protocol_and_poll_timing :
    (∀ tid : Nat, impl_dtor_pushes tid =
      [⟨ACTION_DISPLAY_MSG, tid, message_processor_src_id,
        VERBOSITY_MINOR_STEPS, "killing message processor".toList⟩,
       ⟨ACTION_KILL, tid, message_processor_src_id, VERBOSITY_QUIET, []⟩]) ∧
    impl_dtor_max_polls = 10 ∧
    impl_dtor_poll_timeout_usec = 100000 ∧
    impl_dtor_poll_timeout_usec ≠ 10000 ∧
    (∀ d : Option Nat, impl_dtor_poll_count d ≤ impl_dtor_max_polls) ∧
    (∀ (ist : ImplState) (tid : Nat) (d : Option Nat),
      (impl_dtor ist tid d).1 = impl_dtor_pushes tid) := by
  refine ⟨fun tid => rfl, rfl, rfl, by decide, fun d => ?_, fun ist tid d => rfl⟩
  cases d with
  | none => exact le_refl _
  | some k => exact min_le_right _ _

/-- C9 counterexample: with the global ceiling at `VERBOSITY_QUIET`, a
`VERBOSITY_ERRORS` message from the unregistered source id 5 is dropped
by the short-circuited first conjunct of `process_msg` and the registry
is NOT mutated — no default entry for id 5 is inserted, contrary to the
claim that even the drop path inserts one. -/
theorem drop_at_global_ceiling_skips_registry_insert :
    process_msg ⟨impl_init VERBOSITY_QUIET, []⟩ 5 5 VERBOSITY_ERRORS "m".toList =
      ⟨impl_init VERBOSITY_QUIET, []⟩ ∧
    mapFind (process_msg ⟨impl_init VERBOSITY_QUIET, []⟩ 5 5 VERBOSITY_ERRORS
      "m".toList).impl.message_source_verbosity_map 5 = none := by
  decide

/-- C9 (amended): for an unregistered source id the `operator[]` lookup
default-inserts a `VERBOSITY_QUIET` ceiling, so only `VERBOSITY_QUIET`
messages from such a source are ever enqueued; on the enqueue path the
registry is mutated exactly when `severity <= overall_verbosity` (the
`&&` short-circuits the lookup otherwise), while the render-time lookup
in `make_msg_to_display` always default-inserts. -/
theorem unregistered_source_defaults_to_quiet (bs : BrokerState)
    (ist : ImplState) (a : Action) (tid : Nat) (src : Int)
    (sev : Verbosity_Level) (m : List Char)
    (hbs : mapFind bs.impl.message_source_verbosity_map src = none)
    (hist : mapFind ist.message_source_verbosity_map src = none) :
    ((process_msg bs tid src sev m).queue =
      if sev = VERBOSITY_QUIET then
        bs.queue ++ [⟨ACTION_DISPLAY_MSG, tid, src, sev, m⟩]
      else bs.queue) ∧
    (mapFind (process_msg bs tid src sev m).impl.message_source_verbosity_map src =
      if vle sev bs.impl.overall_verbosity then some VERBOSITY_QUIET else none) ∧
    (mapFind (make_msg_to_display ist
        ⟨a, tid, src, sev, m⟩).2.2.message_source_verbosity_map src =
      some VERBOSITY_QUIET) := by
  refine ⟨?_, ?_, ?_⟩
  · simp only [process_msg]
    cases hov : vle sev bs.impl.overall_verbosity with
    | false =>
      have hq : ¬ sev = VERBOSITY_QUIET := by
        intro h
        rw [h, vle_quiet_left] at hov
        exact Bool.false_ne_true hov.symm
      simp [hov, hq]
    | true =>
      rw [mapIndex_of_none hbs]
      cases hsq : vle sev VERBOSITY_QUIET with
      | false =>
        have hq : ¬ sev = VERBOSITY_QUIET := by
          intro h
          rw [h] at hsq
          exact Bool.false_ne_true ((vle_quiet_left _).symm.trans hsq).symm
        simp [hov, hsq, hq]
      | true =>
        have hq : sev = VERBOSITY_QUIET := (vle_quiet_right_iff sev).mp hsq
        simp [hov, hsq, hq]
  · simp only [process_msg]
    cases hov : vle sev bs.impl.overall_verbosity with
    | false => simp [hov, hbs]
    | true =>
      rw [mapIndex_of_none hbs]
      cases hsq : vle sev VERBOSITY_QUIET with
      | false => simp [hov, hsq, mapFind_append_single_self hbs]
      | true => simp [hov, hsq, mapFind_append_single_self hbs]
  · have h2 : (make_msg_to_display ist
        ⟨a, tid, src, sev, m⟩).2.2.message_source_verbosity_map =
        (mapIndex ist.message_source_verbosity_map src VERBOSITY_QUIET).2 := rfl
    rw [h2, mapIndex_of_none hist]
    exact mapFind_append_single_self hist

/-- Witness for C9 (amended): instantiated at the broker state right
after `impl_init VERBOSITY_EVERYTHING` with the unregistered source id
5 and severity `VERBOSITY_ERRORS`. -/
theorem unregistered_source_defaults_to_quiet_witness :
    mapFind (impl_init VERBOSITY_EVERYTHING).message_source_verbosity_map 5 = none ∧
    ((process_msg ⟨impl_init VERBOSITY_EVERYTHING, []⟩ 5 5 VERBOSITY_ERRORS
        "m".toList).queue =
      if VERBOSITY_ERRORS = VERBOSITY_QUIET then
        ([] : List Message_Parms) ++
          [⟨ACTION_DISPLAY_MSG, 5, 5, VERBOSITY_ERRORS, "m".toList⟩]
      else []) ∧
    (mapFind (process_msg ⟨impl_init VERBOSITY_EVERYTHING, []⟩ 5 5
        VERBOSITY_ERRORS "m".toList).impl.message_source_verbosity_map 5 =
      if vle VERBOSITY_ERRORS (impl_init VERBOSITY_EVERYTHING).overall_verbosity then
        some VERBOSITY_QUIET
      else none) ∧
    (mapFind (make_msg_to_display (impl_init VERBOSITY_EVERYTHING)
        ⟨ACTION_DISPLAY_MSG, 5, 5, VERBOSITY_ERRORS,
          "m".toList⟩).2.2.message_source_verbosity_map 5 =
      some VERBOSITY_QUIET) := by
  have h := unregistered_source_defaults_to_quiet
    ⟨impl_init VERBOSITY_EVERYTHING, []⟩ (impl_init VERBOSITY_EVERYTHING)
    ACTION_DISPLAY_MSG 5 5 VERBOSITY_ERRORS "m".toList (by decide) (by decide)
  exact ⟨by decide, h.1, h.2.1, h.2.2⟩

/-- C1: the render decision for a `Display` message is re-evaluated at
render time against the ceilings in the current state: the consumer
writes something for the message iff `severity <= ` the current
per-source ceiling and `severity <= ` the current global ceiling.
`process_msg` enqueues exactly when the corresponding enqueue-time
filter passes (so a message dropped there is never in the queue, and
widening the ceiling later cannot resurrect it), and
`set_overall_verbosity` never touches the queue.  The final conjuncts
run the concrete scenario: a `VERBOSITY_EVERYTHING` message is enqueued
under a `VERBOSITY_EVERYTHING` global ceiling, the ceiling is narrowed
to `VERBOSITY_QUIET`, and the already-queued message is then dropped at
render time. -/
theorem render_decision_uses_current_ceilings :
    (∀ (ist : ImplState) (ls : LoopState) (tid : Nat) (src : Int)
        (sev : Verbosity_Level) (m : List Char),
      (loop_step ist ls ⟨ACTION_DISPLAY_MSG, tid, src, sev, m⟩).2.2.1 ≠ [] ↔
        (vle sev (mapIndex ist.message_source_verbosity_map src
            VERBOSITY_QUIET).1 = true ∧
         vle sev ist.overall_verbosity = true)) ∧
    (∀ (bs : BrokerState) (tid : Nat) (src : Int) (sev : Verbosity_Level)
        (m : List Char),
      (process_msg bs tid src sev m).queue =
        if vle sev bs.impl.overall_verbosity &&
           vle sev (mapIndex bs.impl.message_source_verbosity_map src
              VERBOSITY_QUIET).1 then
          bs.queue ++ [⟨ACTION_DISPLAY_MSG, tid, src, sev, m⟩]
        else bs.queue) ∧
    (∀ (bs : BrokerState) (v : Verbosity_Level),
      (set_overall_verbosity bs v).queue = bs.queue) ∧
    ((process_msg ⟨impl_init VERBOSITY_EVERYTHING, []⟩ 5 0 VERBOSITY_EVERYTHING
        "hello".toList).queue =
      [⟨ACTION_DISPLAY_MSG, 5, 0, VERBOSITY_EVERYTHING, "hello".toList⟩]) ∧
    ((loop_step
        (set_overall_verbosity
          (process_msg ⟨impl_init VERBOSITY_EVERYTHING, []⟩ 5 0
            VERBOSITY_EVERYTHING "hello".toList) VERBOSITY_QUIET).impl
        initLoopState
        ⟨ACTION_DISPLAY_MSG, 5, 0, VERBOSITY_EVERYTHING, "hello".toList⟩).2.2.1 =
      []) := by
  refine ⟨?_, ?_, fun bs v => rfl, by decide, by decide⟩
  · intro ist ls tid src sev m
    have hmk : (make_msg_to_display ist
        ⟨ACTION_DISPLAY_MSG, tid, src, sev, m⟩).1 =
        (vle sev (mapIndex ist.message_source_verbosity_map src
          VERBOSITY_QUIET).1 && vle sev ist.overall_verbosity) := rfl
    simp only [loop_step]
    cases hb : (make_msg_to_display ist
        ⟨ACTION_DISPLAY_MSG, tid, src, sev, m⟩).1 with
    | false =>
      rw [hmk, Bool.and_eq_false_iff] at hb
      simp only [Bool.false_eq_true, if_false]
      constructor
      · intro h
        exact absurd rfl h
      · rintro ⟨h1, h2⟩
        rcases hb with hb | hb
        · rw [h1] at hb
          exact Bool.noConfusion hb
        · rw [h2] at hb
          exact Bool.noConfusion hb
    | true =>
      rw [hmk, Bool.and_eq_true] at hb
      simp only [if_true]
      constructor
      · intro _
        exact hb
      · intro _
        split
        · split
          · split
            · split
              · simp
              · simp
            · simp
          · simp
        · simp [List.append_eq_nil]
  · intro bs tid src sev m
    simp only [process_msg]
    cases hov : vle sev bs.impl.overall_verbosity with
    | false => simp [hov]
    | true =>
      cases hc : vle sev (mapIndex bs.impl.message_source_verbosity_map src
          VERBOSITY_QUIET).1 with
      | false => simp [hov, hc]
      | true => simp [hov, hc]

/-! ## Ticker step lemmas -/

lemma make_fst_eq (ist : ImplState) (p : Message_Parms) :
    (make_msg_to_display ist p).1 =
      (vle p.severity (mapIndex ist.message_source_verbosity_map p.src
        VERBOSITY_QUIET).1 && vle p.severity ist.overall_verbosity) := rfl

lemma make_state_eq (ist : ImplState) (p : Message_Parms) :
    (make_msg_to_display ist p).2.2 =
      { ist with message_source_verbosity_map :=
          (mapIndex ist.message_source_verbosity_map p.src
            VERBOSITY_QUIET).2 } := rfl

lemma make_fst_of_some (ist : ImplState) (p : Message_Parms)
    (c : Verbosity_Level)
    (hfind : mapFind ist.message_source_verbosity_map p.src = some c)
    (hc : vle p.severity c = true)
    (hov : vle p.severity ist.overall_verbosity = true) :
    (make_msg_to_display ist p).1 = true := by
  rw [make_fst_eq, mapIndex_of_some hfind]
  simp [hc, hov]

lemma make_state_of_some (ist : ImplState) (p : Message_Parms)
    (c : Verbosity_Level)
    (hfind : mapFind ist.message_source_verbosity_map p.src = some c) :
    (make_msg_to_display ist p).2.2 = ist := by
  rw [make_state_eq, mapIndex_of_some hfind]

lemma loop_step_ticker_same (ist : ImplState) (ls : LoopState) (tid : Nat)
    (src : Int) (sev : Verbosity_Level) (m : List Char) (c : Verbosity_Level)
    (hfind : mapFind ist.message_source_verbosity_map src = some c)
    (hc : vle sev c = true) (hov : vle sev ist.overall_verbosity = true)
    (htick : isTicker m = true) (htc : ls.tick_count ≠ 0)
    (hsrc : ls.prev_src = src)
    (htid : (tid : Int) % 2 ^ 64 = ls.prev_tid % 2 ^ 64)
    (hmsg : ls.prev_msg = m) :
    loop_step ist ls ⟨ACTION_DISPLAY_MSG, tid, src, sev, m⟩ =
      (ist, { ls with tick_count := ls.tick_count + 1 },
       [.glyph true (ls.tick_count % 4)], false) := by
  have hok := make_fst_of_some ist ⟨ACTION_DISPLAY_MSG, tid, src, sev, m⟩ c
    hfind hc hov
  have hst := make_state_of_some ist ⟨ACTION_DISPLAY_MSG, tid, src, sev, m⟩ c
    hfind
  simp only [loop_step, hok, hst, htick]
  simp [htc, hsrc, htid, hmsg]
  exact htid

lemma loop_step_ticker_first (ist : ImplState) (ls : LoopState) (tid : Nat)
    (src : Int) (sev : Verbosity_Level) (m : List Char) (c : Verbosity_Level)
    (hfind : mapFind ist.message_source_verbosity_map src = some c)
    (hc : vle sev c = true) (hov : vle sev ist.overall_verbosity = true)
    (htick : isTicker m = true) (htc0 : ls.tick_count = 0) :
    loop_step ist ls ⟨ACTION_DISPLAY_MSG, tid, src, sev, m⟩ =
      (ist, ⟨1, m, int_of_tid tid, src, ls.prev_severity⟩,
       [.out (make_msg_to_display ist
          ⟨ACTION_DISPLAY_MSG, tid, src, sev, m⟩).2.1,
        .glyph true 0], false) := by
  have hok := make_fst_of_some ist ⟨ACTION_DISPLAY_MSG, tid, src, sev, m⟩ c
    hfind hc hov
  have hst := make_state_of_some ist ⟨ACTION_DISPLAY_MSG, tid, src, sev, m⟩ c
    hfind
  simp only [loop_step, hok, hst, htick]
  simp [htc0]

lemma loop_run_same_ticker (ist : ImplState) (tid : Nat) (src : Int)
    (sev : Verbosity_Level) (m : List Char) (c : Verbosity_Level)
    (hfind : mapFind ist.message_source_verbosity_map src = some c)
    (hc : vle sev c = true) (hov : vle sev ist.overall_verbosity = true)
    (htick : isTicker m = true) :
    ∀ (k : Nat) (ls : LoopState), ls.prev_src = src →
      (tid : Int) % 2 ^ 64 = ls.prev_tid % 2 ^ 64 →
      ls.prev_msg = m → ls.tick_count ≠ 0 →
      loop_run ist ls
          (List.replicate k ⟨ACTION_DISPLAY_MSG, tid, src, sev, m⟩) =
        (ist, { ls with tick_count := ls.tick_count + k },
         (List.range k).map
           (fun j => OutItem.glyph true ((ls.tick_count + j) % 4))) := by
  intro k
  induction k with
  | zero =>
    intro ls _ _ _ _
    simp [loop_run]
  | succ n ih =>
    intro ls h1 h2 h3 h4
    rw [List.replicate_succ]
    have hstep := loop_step_ticker_same ist ls tid src sev m c hfind hc hov
      htick h4 h1 h2 h3
    simp only [loop_run, hstep, Bool.false_eq_true, if_false]
    rw [ih { ls with tick_count := ls.tick_count + 1 } h1 h2 h3
      (Nat.succ_ne_zero _)]
    simp only [Prod.mk.injEq]
    refine ⟨trivial, ?_, ?_⟩
    · congr 1
      omega
    · rw [List.range_succ_eq_map, List.map_cons, List.map_map]
      refine congrArg₂ List.cons (by rw [Nat.add_zero]) ?_
      refine List.map_congr_left (fun j _ => ?_)
      have hj : ls.tick_count + 1 + j = ls.tick_count + Nat.succ j := by omega
      simp [Function.comp, hj]

/-- When the producer tid survives the `pthread_t`-to-`int` round trip
(`int_of_tid` followed by sign extension), a run of `k + 1` identical
rendered ticker messages from the not-ticking state produces one full
rendered line with glyph 0 and then one normal-rotation glyph per
subsequent message.  This is the only region where the same-thread
comparison of line 171 recognises the thread. -/
lemma loop_run_stable_tid_ticker (ist : ImplState) (ls : LoopState)
    (tid : Nat) (src : Int) (sev : Verbosity_Level) (m : List Char)
    (c : Verbosity_Level) (k : Nat)
    (hfind : mapFind ist.message_source_verbosity_map src = some c)
    (hc : vle sev c = true) (hov : vle sev ist.overall_verbosity = true)
    (htick : isTicker m = true) (htc0 : ls.tick_count = 0)
    (hrt : (tid : Int) % 2 ^ 64 = int_of_tid tid % 2 ^ 64) :
    loop_run ist ls
        (List.replicate (k + 1) ⟨ACTION_DISPLAY_MSG, tid, src, sev, m⟩) =
      (ist, ⟨k + 1, m, int_of_tid tid, src, ls.prev_severity⟩,
       OutItem.out (make_msg_to_display ist
          ⟨ACTION_DISPLAY_MSG, tid, src, sev, m⟩).2.1 ::
       OutItem.glyph true 0 ::
       (List.range k).map (fun j => OutItem.glyph true ((1 + j) % 4))) := by
  rw [List.replicate_succ]
  have hstep := loop_step_ticker_first ist ls tid src sev m c hfind hc hov
    htick htc0
  simp only [loop_run, hstep, Bool.false_eq_true, if_false]
  rw [loop_run_same_ticker ist tid src sev m c hfind hc hov htick k
    ⟨1, m, int_of_tid tid, src, ls.prev_severity⟩ rfl hrt rfl one_ne_zero]
  simp only [Prod.mk.injEq]
  refine ⟨trivial, ?_, rfl⟩
  congr 1
  omega

/-- While ticking, a rendered ticker message failing the line-171
comparison (different source id, or tid differing from the
sign-extended `prev_tid` modulo `2^64`) prints one glyph of the
modified rotation and leaves the remembered identity untouched. -/
lemma loop_step_ticker_other (ist : ImplState) (ls : LoopState) (tid : Nat)
    (src : Int) (sev : Verbosity_Level) (m : List Char) (c : Verbosity_Level)
    (hfind : mapFind ist.message_source_verbosity_map src = some c)
    (hc : vle sev c = true) (hov : vle sev ist.overall_verbosity = true)
    (htick : isTicker m = true) (htc : ls.tick_count ≠ 0)
    (hdiff : ¬(src = ls.prev_src ∧
      (tid : Int) % 2 ^ 64 = ls.prev_tid % 2 ^ 64)) :
    loop_step ist ls ⟨ACTION_DISPLAY_MSG, tid, src, sev, m⟩ =
      (ist, { ls with tick_count := ls.tick_count + 1 },
       [.glyph false (ls.tick_count % 4)], false) := by
  have hok := make_fst_of_some ist ⟨ACTION_DISPLAY_MSG, tid, src, sev, m⟩ c
    hfind hc hov
  have hst := make_state_of_some ist ⟨ACTION_DISPLAY_MSG, tid, src, sev, m⟩
    c hfind
  simp only [loop_step, hok, hst, htick]
  simp [htc, hdiff]
  intro h1 h2
  exact absurd ⟨h1, h2⟩ hdiff

/-- No symbol of the modified ("interrupted") rotation occurs in the
normal rotation. -/
lemma mod_tick_disjoint : ∀ i < 4, ∀ j < 4,
    mod_tick_string i ≠ tick_string j := by
  decide

/-- C5: the same-thread ticker coalescing is broken by the
`pthread_t`-to-`int` narrowing of `prev_tid`.  Two identical rendered
ticker messages from the same thread with tid `2^31` (any tid not fixed
by 32-bit truncation followed by sign extension, which includes every
realistic glibc `pthread_t`) produce the full line and glyph 0, but
the second message fails the line-171 comparison against the
sign-extended `prev_tid = -2^31` and prints the *interrupted*-rotation
glyph instead of the claimed normal-rotation glyph.  For a tid that
survives the round trip (here 5) the run behaves as the claim states:
one full line, then normal glyphs `1, 2` — never a second line. -/
theorem same_thread_ticker_broken_by_tid_narrowing :
    (loop_run (impl_init VERBOSITY_EVERYTHING) initLoopState
        (List.replicate 2
          ⟨ACTION_DISPLAY_MSG, 2 ^ 31, 0, VERBOSITY_MINOR_STEPS,
           "tick .".toList⟩)).2.2 =
      [OutItem.out "[2147483648] Info:   Message_Processor - tick .".toList,
       OutItem.glyph true 0, OutItem.glyph false 1] ∧
    int_of_tid (2 ^ 31) = -(2 ^ 31) ∧
    (loop_run (impl_init VERBOSITY_EVERYTHING) initLoopState
        (List.replicate 3
          ⟨ACTION_DISPLAY_MSG, 5, 0, VERBOSITY_MINOR_STEPS,
           "tick .".toList⟩)).2.2 =
      [OutItem.out "[ 5] Info:   Message_Processor - tick .".toList,
       OutItem.glyph true 0, OutItem.glyph true 1, OutItem.glyph true 2] := by
  refine ⟨by decide, by decide, by decide⟩

/-- C6: the different-thread ticker interruption is likewise broken by
the narrowed `prev_tid`.  With the ticker line owned by the thread with
tid `2^32 + 5` (remembered as `int_of_tid (2^32 + 5) = 5`), an
identical ticker message from the *different* thread with tid `5`
passes the line-171 comparison (`5` equals the sign-extended `5`), so
the consumer takes the same-thread branch: it prints a *normal*-rotation
glyph instead of the claimed interrupted glyph.  A non-colliding
different thread (tid `9`) does get the interrupted glyph, whose
rotation shares no symbol with the normal one
(`mod_tick_disjoint`). -/
theorem colliding_thread_ticker_not_interrupted :
    loop_step (impl_init VERBOSITY_EVERYTHING)
        ⟨1, "work .".toList, int_of_tid (2 ^ 32 + 5), 0, VERBOSITY_ERRORS⟩
        ⟨ACTION_DISPLAY_MSG, 5, 0, VERBOSITY_MINOR_STEPS,
         "work .".toList⟩ =
      (impl_init VERBOSITY_EVERYTHING,
       ⟨2, "work .".toList, int_of_tid (2 ^ 32 + 5), 0, VERBOSITY_ERRORS⟩,
       [OutItem.glyph true 1], false) ∧
    (2 ^ 32 + 5 : Nat) ≠ 5 ∧
    (loop_step (impl_init VERBOSITY_EVERYTHING)
        ⟨1, "work .".toList, int_of_tid (2 ^ 32 + 5), 0, VERBOSITY_ERRORS⟩
        ⟨ACTION_DISPLAY_MSG, 9, 0, VERBOSITY_MINOR_STEPS,
         "work .".toList⟩).2.2.1 =
      [OutItem.glyph false 1] := by
  refine ⟨by decide, by decide, by decide⟩

/-- C10: once the consumer observes `Kill`, the do-while exits having
produced no output for the `Kill` itself, and the thread function then
emits exactly one further `VERBOSITY_MINOR_STEPS` "Impl::run - exit"
diagnostic from source id 0, provided it passes the current global and
source-0 ceilings — so the `Kill` sentinel need not be the last output
of the consumer thread.  Concretely, under a `MinorSteps` global
ceiling a lone `Kill` still yields one rendered exit line, while under
an `Errors` ceiling it yields none. -/
theorem exit_diagnostic_follows_kill :
    (∀ (ist : ImplState) (tid : Nat),
      (loop_epilogue ist tid).2 =
        if vle VERBOSITY_MINOR_STEPS
             (mapIndex ist.message_source_verbosity_map
               message_processor_src_id VERBOSITY_QUIET).1 &&
           vle VERBOSITY_MINOR_STEPS ist.overall_verbosity then
          [.outLn (make_msg_to_display ist
            ⟨ACTION_DISPLAY_MSG, tid, message_processor_src_id,
             VERBOSITY_MINOR_STEPS, "Impl::run - exit".toList⟩).2.1]
        else []) ∧
    (∀ (ist : ImplState) (ls : LoopState) (tid : Nat) (src : Int)
        (sev : Verbosity_Level) (m : List Char) (rest : List Message_Parms),
      loop_run ist ls (⟨ACTION_KILL, tid, src, sev, m⟩ :: rest) =
        ({ ist with we_are_dead := true }, ls, [])) ∧
    ((consumer_thread (impl_init VERBOSITY_MINOR_STEPS) 5
        [⟨ACTION_KILL, 5, 0, VERBOSITY_QUIET, []⟩]).2 =
      [.outLn "[ 5] Info:   Message_Processor - Impl::run - exit\n".toList]) ∧
    ((consumer_thread (impl_init VERBOSITY_ERRORS) 5
        [⟨ACTION_KILL, 5, 0, VERBOSITY_QUIET, []⟩]).2 = []) := by
  exact ⟨fun ist tid => rfl, fun ist ls tid src sev m rest => rfl,
    by decide, by decide⟩

end ReGen
